import Mathlib

/-!
Shallow embedding of `SchemaValidator.validate` from
`src/packages/services/api/src/modules/schema/providers/schema-validator.ts`
(repository `enisdenjo/graphql-hive`).

External collaborators (`parse`, `hashSchema`, `Orchestrator.validate`,
`Orchestrator.build`, `buildSchema`, `Inspector.diff`) are not part of the
source under verification; they are modelled as fields of an environment
`Env` of pure functions (fallible ones return `Except String _`, modelling
a thrown/rejected `Error` by its message).  GraphQL documents are modelled
abstractly as lists of definitions (`concatAST` appends them) and built
schemas as opaque numbers.  `validate` returns, next to the
`ValidationResult`, the list of calls made to the orchestrator and the
inspector, so that claims of the form "X is never invoked" are statable.
-/

namespace SchemaValidator

/-- Model of the external-composition configuration attached to a project
(`project.externalComposition`, with the truthiness-tested `enabled` flag). -/
structure ExternalComposition where
  enabled : Bool
  endpoint : String
deriving DecidableEq, Repr

/-- Model of `Project`: only `externalComposition` is read by `validate`. -/
structure Project where
  externalComposition : ExternalComposition
deriving DecidableEq, Repr

/-- Model of `SchemaObject`: `raw` SDL text, parsed `document` (a list of
definitions), and `source` standing for the remaining fields preserved by
the object spread in the base-schema merge. -/
structure SchemaObject where
  raw : String
  document : List String
  source : String
deriving DecidableEq, Repr

/-- Model of `Types.SchemaError` (`message`, optional `path`). -/
structure SchemaError where
  message : String
  path : Option String
deriving DecidableEq, Repr

/-- Model of `Types.SchemaChange` (`criticality`, `message`, optional `path`).
Criticality is the literal string compared against `'Breaking'`. -/
structure SchemaChange where
  criticality : String
  message : String
  path : Option String
deriving DecidableEq, Repr

/-- The `ValidationResult` record returned by `validate`. -/
structure ValidationResult where
  valid : Bool
  isComposable : Bool
  errors : List SchemaError
  changes : List SchemaChange
deriving DecidableEq, Repr

/-- One observable call made by `validate` to a collaborator, with the
arguments it received. -/
inductive Call where
  | validateCall : List SchemaObject → Option ExternalComposition → Call
  | buildCall : List SchemaObject → ExternalComposition → Call
  | diffCall : Nat → Nat → String → Call
deriving DecidableEq, Repr

/-- The environment of external collaborators. -/
structure Env where
  parse : String → Except String (List String)
  hashSchema : SchemaObject → Nat
  orchestratorValidate : List SchemaObject → Option ExternalComposition → List SchemaError
  orchestratorBuild : List SchemaObject → ExternalComposition → Except String (Option SchemaObject)
  buildSchema : Option SchemaObject → Except String Nat
  inspectorDiff : Nat → Nat → String → Except String (List SchemaChange)

/-- The named arguments of `SchemaValidator.validate`. -/
structure ValidateInput where
  isInitial : Bool
  incoming : SchemaObject
  existing : Option SchemaObject
  before : List SchemaObject
  after : List SchemaObject
  selector : String
  baseSchema : Option String
  experimental_acceptBreakingChanges : Bool
  project : Project

/-- `concatAST` from `graphql`: concatenates the definition lists. -/
def concatAST (docs : List (List String)) : List String := docs.flatten

/-- The `afterWithBase` computation: `baseSchema ? after.map(...) : after`.
TypeScript truthiness makes `null` and the empty string both take the
`after` branch.  Only the element at index 0 is rewritten; `parse` of the
base schema may throw, which propagates out of the `map`. -/
def computeAfterWithBase (env : Env) (baseSchema : Option String)
    (after : List SchemaObject) : Except String (List SchemaObject) :=
  match baseSchema with
  | none => .ok after
  | some b =>
    if b = "" then .ok after
    else
      match after with
      | [] => .ok []
      | s0 :: rest =>
        match env.parse b with
        | .error e => .error e
        | .ok bdoc =>
          .ok (({ s0 with
                  raw := b ++ s0.raw
                  document := concatAST [bdoc, s0.document] }) :: rest)

/-- The rewritten first element of `after` when a truthy base schema `b`
parsing to `bdoc` is supplied: raw text prepended, documents concatenated,
all other fields kept by the object spread. -/
def mergedFirst (b : String) (bdoc : List String) (s0 : SchemaObject) : SchemaObject :=
  { s0 with
    raw := b ++ s0.raw
    document := concatAST [bdoc, s0.document] }

/-- `const areIdentical = existing && hashSchema(existing) === hashSchema(incoming)`. -/
def areIdentical (env : Env) (existing : Option SchemaObject)
    (incoming : SchemaObject) : Bool :=
  match existing with
  | some ex => env.hashSchema ex == env.hashSchema incoming
  | none => false

/-- `project.externalComposition.enabled ? project.externalComposition : null`,
the second argument of `orchestrator.validate`. -/
def compositionConfig (p : Project) : Option ExternalComposition :=
  if p.externalComposition.enabled then some p.externalComposition else none

/-- The error pushed by the `catch` block. -/
def compareFailError (msg : String) : SchemaError :=
  { message := "Failed to compare schemas: " ++ msg, path := none }

/-- The error pushed for one breaking change (`forEach` body): message
prefixed with `Breaking Change: `, path copied from the change. -/
def mkBreakingError (c : SchemaChange) : Option SchemaError :=
  if c.criticality == "Breaking" then
    some { message := "Breaking Change: " ++ c.message, path := c.path }
  else none

/-- The `try { ... } catch { ... }` block: builds `before` and `after`
(`Promise.all` starts both; a rejection of either is caught), diffs when the
`before` build produced a usable schema, and appends breaking-change errors
unless the experimental flag accepts them.  Returns the final error list,
the `changes` list, and the inspector calls made. -/
def tryDiffStep (env : Env) (i : ValidateInput) (errors0 : List SchemaError) :
    List SchemaError × List SchemaChange × List Call :=
  match env.orchestratorBuild i.before i.project.externalComposition with
  | .error e => (errors0 ++ [compareFailError e], [], [])
  | .ok existingSchema =>
    match env.orchestratorBuild i.after i.project.externalComposition with
    | .error e => (errors0 ++ [compareFailError e], [], [])
    | .ok incomingSchema =>
      match existingSchema with
      | none => (errors0, [], [])
      | some es =>
        match env.buildSchema (some es) with
        | .error e => (errors0 ++ [compareFailError e], [], [])
        | .ok builtExisting =>
          match env.buildSchema incomingSchema with
          | .error e => (errors0 ++ [compareFailError e], [], [])
          | .ok builtIncoming =>
            match env.inspectorDiff builtExisting builtIncoming i.selector with
            | .error e => (errors0 ++ [compareFailError e], [],
                [Call.diffCall builtExisting builtIncoming i.selector])
            | .ok changes =>
              let hasBreakingChanges := changes.any fun c => c.criticality == "Breaking"
              let errors1 :=
                if hasBreakingChanges && !i.experimental_acceptBreakingChanges then
                  errors0 ++ changes.filterMap mkBreakingError
                else errors0
              (errors1, changes, [Call.diffCall builtExisting builtIncoming i.selector])

/-- `SchemaValidator.validate`.  `Except.error` models an uncaught throw
(the only one reachable from pure collaborators is the base-schema `parse`).
The second component of the result is the list of collaborator calls, in
order. -/
def validate (env : Env) (i : ValidateInput) :
    Except String (ValidationResult × List Call) :=
  match computeAfterWithBase env i.baseSchema i.after with
  | .error e => .error e
  | .ok afterWithBase =>
    if areIdentical env i.existing i.incoming then
      .ok ({ valid := true, isComposable := true, errors := [], changes := [] }, [])
    else
      let cfg := compositionConfig i.project
      let errors0 := env.orchestratorValidate afterWithBase cfg
      let log0 := [Call.validateCall afterWithBase cfg]
      if i.isInitial then
        .ok ({ valid := errors0.length == 0, isComposable := errors0.length == 0,
               errors := errors0, changes := [] }, log0)
      else
        let ec := i.project.externalComposition
        let step := tryDiffStep env i errors0
        let hasErrors : Bool := step.1.length > 0
        let valid := !hasErrors
        .ok ({ valid := valid, isComposable := valid,
               errors := step.1, changes := step.2.1 },
             log0 ++ [Call.buildCall i.before ec, Call.buildCall i.after ec] ++ step.2.2)

/-! ### Concrete instances used by witnesses and counterexamples -/

/-- A trivial environment: everything succeeds, hashes are raw lengths. -/
def wEnv : Env := {
  parse := fun s => if s = "bad" then .error "Syntax Error" else .ok [s]
  hashSchema := fun s => s.raw.length
  orchestratorValidate := fun _ _ => []
  orchestratorBuild := fun _ _ => .ok none
  buildSchema := fun _ => .ok 0
  inspectorDiff := fun _ _ _ => .ok []
}

/-- A concrete schema object. -/
def wSchema : SchemaObject :=
  { raw := "type Query", document := ["type Query"], source := "svc" }

/-- A concrete input taking the final return path. -/
def wInput : ValidateInput := {
  isInitial := false
  incoming := wSchema
  existing := none
  before := []
  after := [wSchema]
  selector := "sel"
  baseSchema := none
  experimental_acceptBreakingChanges := false
  project := { externalComposition := { enabled := true, endpoint := "url" } }
}

/-- Input for the C2 counterexample: identical hashes, but an unparseable
base schema. -/
def c2Input : ValidateInput := {
  isInitial := false
  incoming := wSchema
  existing := some wSchema
  before := [wSchema]
  after := [wSchema]
  selector := "sel"
  baseSchema := some "bad"
  experimental_acceptBreakingChanges := false
  project := { externalComposition := { enabled := true, endpoint := "url" } }
}

/-- A Breaking schema change used by concrete instances. -/
def breakingChange : SchemaChange :=
  { criticality := "Breaking", message := "Field removed", path := some "Query.x" }

/-- Environment for the C3 witness: both builds succeed, the diff returns
one Breaking change. -/
def c3Env : Env := {
  parse := fun _ => .ok []
  hashSchema := fun s => s.raw.length
  orchestratorValidate := fun _ _ => []
  orchestratorBuild := fun _ _ => .ok (some wSchema)
  buildSchema := fun _ => .ok 7
  inspectorDiff := fun _ _ _ => .ok [breakingChange]
}

/-- Input for the C3 witness. -/
def c3Input : ValidateInput := {
  isInitial := false
  incoming := wSchema
  existing := none
  before := [wSchema]
  after := [wSchema]
  selector := "sel"
  baseSchema := none
  experimental_acceptBreakingChanges := false
  project := { externalComposition := { enabled := false, endpoint := "u" } }
}

/-- The result `validate c3Env c3Input` produces. -/
def c3Result : ValidationResult :=
  { valid := false, isComposable := false,
    errors := [{ message := "Breaking Change: Field removed", path := some "Query.x" }],
    changes := [breakingChange] }

/-- The first failure, if any, in the stages covered by the `try` block of
`validate` (the two `orchestrator.build` calls, the two `buildSchema`
calls, and `inspector.diff`), mirroring the order in which a thrown error
reaches the `catch`. -/
def diffStageError (env : Env) (i : ValidateInput) : Option String :=
  match env.orchestratorBuild i.before i.project.externalComposition with
  | .error e => some e
  | .ok existingSchema =>
    match env.orchestratorBuild i.after i.project.externalComposition with
    | .error e => some e
    | .ok incomingSchema =>
      match existingSchema with
      | none => none
      | some es =>
        match env.buildSchema (some es) with
        | .error e => some e
        | .ok builtExisting =>
          match env.buildSchema incomingSchema with
          | .error e => some e
          | .ok builtIncoming =>
            match env.inspectorDiff builtExisting builtIncoming i.selector with
            | .error e => some e
            | .ok _ => none

/-- Environment for the C4 witness: the before build rejects. -/
def c4Env : Env := {
  parse := fun _ => .ok []
  hashSchema := fun s => s.raw.length
  orchestratorValidate := fun _ _ => [{ message := "composition issue", path := none }]
  orchestratorBuild := fun _ _ => .error "boom"
  buildSchema := fun _ => .ok 0
  inspectorDiff := fun _ _ _ => .ok []
}

/-- Environment for the C5 counterexample: `Orchestrator.validate` would
report a composition error. -/
def c5Env : Env := {
  parse := fun _ => .ok []
  hashSchema := fun s => s.raw.length
  orchestratorValidate := fun _ _ => [{ message := "composition failed", path := none }]
  orchestratorBuild := fun _ _ => .ok none
  buildSchema := fun _ => .ok 0
  inspectorDiff := fun _ _ _ => .ok []
}

/-- Input for the C5 counterexample: initial, but with an `existing` schema
whose hash equals the incoming one. -/
def c5Input : ValidateInput := {
  isInitial := true
  incoming := wSchema
  existing := some wSchema
  before := []
  after := [wSchema]
  selector := "sel"
  baseSchema := none
  experimental_acceptBreakingChanges := false
  project := { externalComposition := { enabled := false, endpoint := "u" } }
}

/-- Environment for the C6 counterexample: the parser maps the empty
string to a non-empty document. -/
def c6Env : Env := {
  parse := fun s => if s = "" then .ok ["injected"] else .ok [s]
  hashSchema := fun s => s.raw.length
  orchestratorValidate := fun _ _ => []
  orchestratorBuild := fun _ _ => .ok none
  buildSchema := fun _ => .ok 0
  inspectorDiff := fun _ _ _ => .ok []
}

/-- External composition configuration shared by the C7 instances. -/
def c7Ec : ExternalComposition := { enabled := false, endpoint := "u" }

/-- Environment for C7: builds and diff succeed. -/
def c7Env : Env := {
  parse := fun s => .ok [s]
  hashSchema := fun s => s.raw.length
  orchestratorValidate := fun _ _ => []
  orchestratorBuild := fun _ _ => .ok (some wSchema)
  buildSchema := fun _ => .ok 7
  inspectorDiff := fun _ _ _ => .ok []
}

/-- Input for C7: a base schema is supplied. -/
def c7Input : ValidateInput := {
  isInitial := false
  incoming := wSchema
  existing := none
  before := [wSchema]
  after := [wSchema]
  selector := "sel"
  baseSchema := some "base "
  experimental_acceptBreakingChanges := false
  project := { externalComposition := c7Ec }
}

/-- The base-merged first element of `after` under `c7Env`/`c7Input`. -/
def c7Merged : SchemaObject :=
  { raw := "base type Query", document := ["base ", "type Query"], source := "svc" }

/-- Environment for the C8 counterexample: the before build resolves to a
null schema while the after build rejects. -/
def c8Env : Env := {
  parse := fun _ => .ok []
  hashSchema := fun s => s.raw.length
  orchestratorValidate := fun _ _ => []
  orchestratorBuild := fun xs _ => if xs.isEmpty then .ok none else .error "after boom"
  buildSchema := fun _ => .ok 0
  inspectorDiff := fun _ _ _ => .ok []
}

/-- Input for the C8 counterexample: empty `before`, non-empty `after`. -/
def c8Input : ValidateInput := {
  isInitial := false
  incoming := wSchema
  existing := none
  before := []
  after := [wSchema]
  selector := "sel"
  baseSchema := none
  experimental_acceptBreakingChanges := false
  project := { externalComposition := { enabled := false, endpoint := "u" } }
}

/-- Environment for the C10 counterexample: nothing parses. -/
def c10Env : Env := {
  parse := fun _ => .error "Syntax Error: Unexpected <EOF>"
  hashSchema := fun s => s.raw.length
  orchestratorValidate := fun _ _ => []
  orchestratorBuild := fun _ _ => .ok none
  buildSchema := fun _ => .ok 0
  inspectorDiff := fun _ _ _ => .ok []
}

/-- Input for the C10 counterexample: a non-null but empty base schema,
non-empty `after`, and an `existing` schema of equal hash. -/
def c10Input : ValidateInput := {
  isInitial := false
  incoming := wSchema
  existing := some wSchema
  before := []
  after := [wSchema]
  selector := "sel"
  baseSchema := some ""
  experimental_acceptBreakingChanges := false
  project := { externalComposition := { enabled := false, endpoint := "u" } }
}

/-! ### Helper lemmas -/

theorem not_pos_beq_zero (n : Nat) : (!(decide (n > 0))) = (n == 0) := by
  cases n <;> simp

/-! ### C1 -/

/-- C1: on every input on which `validate` returns a `ValidationResult`
(identity short-circuit, initial-schema exit, and final return alike), the
result satisfies `valid == (errors.length == 0)` and `isComposable == valid`. -/
theorem c1_valid_iff_no_errors (env : Env) (i : ValidateInput)
    (r : ValidationResult) (log : List Call)
    (h : validate env i = .ok (r, log)) :
    r.valid = (r.errors.length == 0) ∧ r.isComposable = r.valid := by
  unfold validate at h
  split at h
  · exact absurd h (by simp)
  · split at h
    · simp only [Except.ok.injEq, Prod.mk.injEq] at h
      obtain ⟨rfl, rfl⟩ := h
      exact ⟨rfl, rfl⟩
    · split at h
      · simp only [Except.ok.injEq, Prod.mk.injEq] at h
        obtain ⟨rfl, rfl⟩ := h
        exact ⟨rfl, rfl⟩
      · simp only [Except.ok.injEq, Prod.mk.injEq] at h
        obtain ⟨rfl, rfl⟩ := h
        exact ⟨not_pos_beq_zero _, rfl⟩

/-- Witness for C1 at a concrete input. -/
theorem c1_valid_iff_no_errors_witness :
    (ValidationResult.mk true true [] []).valid
      = ((ValidationResult.mk true true [] []).errors.length == 0) ∧
    (ValidationResult.mk true true [] []).isComposable
      = (ValidationResult.mk true true [] []).valid :=
  c1_valid_iff_no_errors wEnv wInput (ValidationResult.mk true true [] [])
    [Call.validateCall [wSchema] (some { enabled := true, endpoint := "url" }),
     Call.buildCall [] { enabled := true, endpoint := "url" },
     Call.buildCall [wSchema] { enabled := true, endpoint := "url" }]
    (by rfl)

/-! ### C2 -/

/-- C2 counterexample: with `existing` present and `hash(existing) ==
hash(incoming)` but an unparseable non-empty `baseSchema` and non-empty
`after`, `validate` throws instead of returning the identical-schema
result, so the short-circuit does not hold "regardless of all other
inputs". -/
theorem c2_counterexample :
    c2Input.existing = some c2Input.incoming ∧
    wEnv.hashSchema wSchema = wEnv.hashSchema c2Input.incoming ∧
    validate wEnv c2Input = .error "Syntax Error" :=
  ⟨rfl, rfl, by rfl⟩

/-- C2 (amended): provided the `afterWithBase` computation does not throw
(`baseSchema` absent, empty, `after` empty, or the base parses), whenever
`existing` is non-null and `hash(existing) == hash(incoming)`, `validate`
returns exactly `{valid := true, isComposable := true, errors := [],
changes := []}` with an empty call log — so neither `Orchestrator.validate`
nor `Orchestrator.build` nor `Inspector.diff` is invoked. -/
theorem c2_identical_short_circuit (env : Env) (i : ValidateInput)
    (awb : List SchemaObject) (ex : SchemaObject)
    (hawb : computeAfterWithBase env i.baseSchema i.after = .ok awb)
    (hex : i.existing = some ex)
    (hhash : env.hashSchema ex = env.hashSchema i.incoming) :
    validate env i
      = .ok ({ valid := true, isComposable := true, errors := [], changes := [] }, []) := by
  unfold validate
  rw [hawb]
  have hid : areIdentical env i.existing i.incoming = true := by
    rw [hex]
    unfold areIdentical
    simp [hhash]
  simp [hid]

/-- Witness for C2 (amended) at a concrete input. -/
theorem c2_identical_short_circuit_witness :
    validate wEnv { c2Input with baseSchema := none }
      = .ok ({ valid := true, isComposable := true, errors := [], changes := [] }, []) :=
  c2_identical_short_circuit wEnv { c2Input with baseSchema := none }
    [wSchema] wSchema rfl rfl rfl

/-! ### More helper lemmas (shared across claims) -/

theorem filterMap_breaking_nil (chs : List SchemaChange)
    (h : (chs.any fun c => c.criticality == "Breaking") = false) :
    chs.filterMap mkBreakingError = [] := by
  induction chs with
  | nil => rfl
  | cons c cs ih =>
    simp only [List.any_cons, Bool.or_eq_false_iff] at h
    simp [List.filterMap_cons, mkBreakingError, h.1, ih h.2]

theorem filterMap_breaking_ne_nil (chs : List SchemaChange)
    (h : (chs.any fun c => c.criticality == "Breaking") = true) :
    chs.filterMap mkBreakingError ≠ [] := by
  induction chs with
  | nil => simp at h
  | cons c cs ih =>
    simp only [List.any_cons, Bool.or_eq_true] at h
    cases hc : c.criticality == "Breaking" with
    | false =>
      simp only [List.filterMap_cons, mkBreakingError, hc]
      exact ih (h.resolve_left (by simp [hc]))
    | true => simp [List.filterMap_cons, mkBreakingError, hc]

/-- Unfolding of `validate` on the final return path (`afterWithBase`
computed, not identical, not initial), in terms of `tryDiffStep`. -/
theorem validate_final_branch (env : Env) (i : ValidateInput)
    (awb : List SchemaObject)
    (hawb : computeAfterWithBase env i.baseSchema i.after = .ok awb)
    (hid : areIdentical env i.existing i.incoming = false)
    (hinit : i.isInitial = false) :
    validate env i = .ok
      ({ valid := !(decide ((tryDiffStep env i
            (env.orchestratorValidate awb (compositionConfig i.project))).1.length > 0)),
         isComposable := !(decide ((tryDiffStep env i
            (env.orchestratorValidate awb (compositionConfig i.project))).1.length > 0)),
         errors := (tryDiffStep env i
            (env.orchestratorValidate awb (compositionConfig i.project))).1,
         changes := (tryDiffStep env i
            (env.orchestratorValidate awb (compositionConfig i.project))).2.1 },
       Call.validateCall awb (compositionConfig i.project)
         :: Call.buildCall i.before i.project.externalComposition
         :: Call.buildCall i.after i.project.externalComposition
         :: (tryDiffStep env i
              (env.orchestratorValidate awb (compositionConfig i.project))).2.2) := by
  unfold validate
  rw [hawb, hid, hinit]
  simp

/-! ### C3 -/

/-- C3: on a non-initial validation where both builds succeed, the before
build yields a usable schema, both `buildSchema` calls succeed and the diff
returns `chs`: the result's `changes` is exactly `chs`; with
`acceptBreakingChanges = false` the errors are the composition errors
followed by exactly one error per Breaking change (message prefixed
`Breaking Change: `, path copied), and any Breaking change forces
`valid = false`; with `acceptBreakingChanges = true` no such errors are
appended, so `valid = true` when there are no composition errors, while
`changes` still lists the Breaking entries. -/
theorem c3_breaking_changes (env : Env) (i : ValidateInput)
    (awb : List SchemaObject) (oi : Option SchemaObject) (es : SchemaObject)
    (b1 b2 : Nat) (chs : List SchemaChange)
    (hawb : computeAfterWithBase env i.baseSchema i.after = .ok awb)
    (hid : areIdentical env i.existing i.incoming = false)
    (hinit : i.isInitial = false)
    (hb : env.orchestratorBuild i.before i.project.externalComposition = .ok (some es))
    (ha : env.orchestratorBuild i.after i.project.externalComposition = .ok oi)
    (hbs1 : env.buildSchema (some es) = .ok b1)
    (hbs2 : env.buildSchema oi = .ok b2)
    (hdiff : env.inspectorDiff b1 b2 i.selector = .ok chs)
    (r : ValidationResult) (log : List Call)
    (h : validate env i = .ok (r, log)) :
    r.changes = chs ∧
    (i.experimental_acceptBreakingChanges = false →
      r.errors = env.orchestratorValidate awb (compositionConfig i.project)
                   ++ chs.filterMap mkBreakingError ∧
      ((chs.any fun c => c.criticality == "Breaking") = true → r.valid = false)) ∧
    (i.experimental_acceptBreakingChanges = true →
      r.errors = env.orchestratorValidate awb (compositionConfig i.project) ∧
      (env.orchestratorValidate awb (compositionConfig i.project) = [] → r.valid = true)) := by
  have hstep : tryDiffStep env i (env.orchestratorValidate awb (compositionConfig i.project))
      = (if (chs.any fun c => c.criticality == "Breaking") && !i.experimental_acceptBreakingChanges
           then env.orchestratorValidate awb (compositionConfig i.project)
                  ++ chs.filterMap mkBreakingError
           else env.orchestratorValidate awb (compositionConfig i.project),
         chs, [Call.diffCall b1 b2 i.selector]) := by
    unfold tryDiffStep
    simp only [hb, ha, hbs1, hbs2, hdiff]
  rw [validate_final_branch env i awb hawb hid hinit] at h
  simp only [Except.ok.injEq, Prod.mk.injEq] at h
  obtain ⟨rfl, rfl⟩ := h
  refine ⟨by rw [hstep], fun hacc => ?_, fun hacc => ?_⟩
  · constructor
    · show (tryDiffStep env i _).1 = _
      rw [hstep]
      cases hbr : chs.any fun c => c.criticality == "Breaking" with
      | false => simp [hbr, filterMap_breaking_nil chs hbr]
      | true => simp [hbr, hacc]
    · intro hbr
      show (!(decide ((tryDiffStep env i _).1.length > 0))) = false
      rw [hstep]
      have hne := filterMap_breaking_ne_nil chs hbr
      simp only [hbr, hacc, Bool.not_false, Bool.true_and, if_pos]
      simp [List.length_pos, hne]
  · constructor
    · show (tryDiffStep env i _).1 = _
      rw [hstep]
      simp [hacc]
    · intro hnil
      show (!(decide ((tryDiffStep env i _).1.length > 0))) = true
      rw [hstep]
      simp [hacc, hnil]

/-- Witness for C3 at a concrete input. -/
theorem c3_breaking_changes_witness :
    c3Result.changes = [breakingChange] ∧
    (c3Input.experimental_acceptBreakingChanges = false →
      c3Result.errors = c3Env.orchestratorValidate [wSchema] (compositionConfig c3Input.project)
                   ++ List.filterMap mkBreakingError [breakingChange] ∧
      (([breakingChange].any fun c => c.criticality == "Breaking") = true →
        c3Result.valid = false)) ∧
    (c3Input.experimental_acceptBreakingChanges = true →
      c3Result.errors = c3Env.orchestratorValidate [wSchema] (compositionConfig c3Input.project) ∧
      (c3Env.orchestratorValidate [wSchema] (compositionConfig c3Input.project) = [] →
        c3Result.valid = true)) :=
  c3_breaking_changes c3Env c3Input [wSchema] (some wSchema) wSchema 7 7 [breakingChange]
    rfl rfl rfl rfl rfl rfl rfl rfl c3Result
    [Call.validateCall [wSchema] none,
     Call.buildCall [wSchema] { enabled := false, endpoint := "u" },
     Call.buildCall [wSchema] { enabled := false, endpoint := "u" },
     Call.diffCall 7 7 "sel"]
    (by rfl)

/-! ### C4 -/

theorem tryDiffStep_of_failure (env : Env) (i : ValidateInput)
    (errors0 : List SchemaError) (msg : String)
    (h : diffStageError env i = some msg) :
    (tryDiffStep env i errors0).1 = errors0 ++ [compareFailError msg] ∧
    (tryDiffStep env i errors0).2.1 = [] := by
  unfold diffStageError at h
  unfold tryDiffStep
  cases hb : env.orchestratorBuild i.before i.project.externalComposition with
  | error e =>
    simp only [hb, Option.some.injEq] at h
    subst h
    simp
  | ok ex =>
    simp only [hb] at h ⊢
    cases ha : env.orchestratorBuild i.after i.project.externalComposition with
    | error e =>
      simp only [ha, Option.some.injEq] at h
      subst h
      simp
    | ok oi =>
      simp only [ha] at h ⊢
      cases ex with
      | none => simp at h
      | some es =>
        simp only [] at h ⊢
        cases hbs1 : env.buildSchema (some es) with
        | error e =>
          simp only [hbs1, Option.some.injEq] at h
          subst h
          simp
        | ok be =>
          simp only [hbs1] at h ⊢
          cases hbs2 : env.buildSchema oi with
          | error e =>
            simp only [hbs2, Option.some.injEq] at h
            subst h
            simp
          | ok bi =>
            simp only [hbs2] at h ⊢
            cases hdiff : env.inspectorDiff be bi i.selector with
            | error e =>
              simp only [hdiff, Option.some.injEq] at h
              subst h
              simp
            | ok chs => simp [hdiff] at h

/-- C4: on a non-initial validation, any exception in the before/after
builds, the `buildSchema` calls, or the diff is caught: `validate` does not
throw, the returned errors are exactly the composition errors from
`Orchestrator.validate` followed by one synthetic error whose message
embeds the failure reason, `changes` stays empty and the result is
invalid. -/
theorem c4_diff_exception_caught (env : Env) (i : ValidateInput)
    (awb : List SchemaObject) (msg : String)
    (hawb : computeAfterWithBase env i.baseSchema i.after = .ok awb)
    (hid : areIdentical env i.existing i.incoming = false)
    (hinit : i.isInitial = false)
    (hfail : diffStageError env i = some msg) :
    ∃ log, validate env i = .ok
      ({ valid := false, isComposable := false,
         errors := env.orchestratorValidate awb (compositionConfig i.project)
                     ++ [compareFailError msg],
         changes := [] }, log) := by
  obtain ⟨h1, h2⟩ := tryDiffStep_of_failure env i
    (env.orchestratorValidate awb (compositionConfig i.project)) msg hfail
  refine ⟨Call.validateCall awb (compositionConfig i.project)
      :: Call.buildCall i.before i.project.externalComposition
      :: Call.buildCall i.after i.project.externalComposition
      :: (tryDiffStep env i
           (env.orchestratorValidate awb (compositionConfig i.project))).2.2, ?_⟩
  rw [validate_final_branch env i awb hawb hid hinit]
  rw [h1, h2]
  simp

/-- Witness for C4 at a concrete input. -/
theorem c4_diff_exception_caught_witness :
    ∃ log, validate c4Env c3Input = .ok
      ({ valid := false, isComposable := false,
         errors := c4Env.orchestratorValidate [wSchema] (compositionConfig c3Input.project)
                     ++ [compareFailError "boom"],
         changes := [] }, log) :=
  c4_diff_exception_caught c4Env c3Input [wSchema] "boom" rfl rfl rfl rfl

/-! ### C5 -/

/-- C5 counterexample: with `isInitial = true` but an `existing` schema of
equal hash, the identity short-circuit fires first: the result is
`valid = true` even though the composition-error list `Orchestrator.validate`
would return on the after set is non-empty, so `valid == (composition
errors == [])` does not hold on every `isInitial` input. -/
theorem c5_counterexample :
    c5Input.isInitial = true ∧
    c5Env.orchestratorValidate c5Input.after (compositionConfig c5Input.project) ≠ [] ∧
    validate c5Env c5Input
      = .ok ({ valid := true, isComposable := true, errors := [], changes := [] }, []) :=
  ⟨rfl, List.cons_ne_nil _ _, by rfl⟩

/-- C5 (amended): on an initial validation where the identity short-circuit
does not fire and `afterWithBase` computes, `changes = []`, `valid` and
`isComposable` equal `(composition errors == [])`, the errors are exactly
the composition errors, and the call log contains only the
`Orchestrator.validate` call — `Orchestrator.build` and `Inspector.diff`
are never invoked. -/
theorem c5_initial_exit (env : Env) (i : ValidateInput) (awb : List SchemaObject)
    (hawb : computeAfterWithBase env i.baseSchema i.after = .ok awb)
    (hid : areIdentical env i.existing i.incoming = false)
    (hinit : i.isInitial = true) :
    validate env i = .ok
      ({ valid := (env.orchestratorValidate awb (compositionConfig i.project)).length == 0,
         isComposable := (env.orchestratorValidate awb (compositionConfig i.project)).length == 0,
         errors := env.orchestratorValidate awb (compositionConfig i.project),
         changes := [] },
       [Call.validateCall awb (compositionConfig i.project)]) := by
  unfold validate
  rw [hawb, hid, hinit]
  simp

/-- Witness for C5 (amended) at a concrete input. -/
theorem c5_initial_exit_witness :
    validate wEnv { wInput with isInitial := true } = .ok
      ({ valid := (wEnv.orchestratorValidate [wSchema]
            (compositionConfig wInput.project)).length == 0,
         isComposable := (wEnv.orchestratorValidate [wSchema]
            (compositionConfig wInput.project)).length == 0,
         errors := wEnv.orchestratorValidate [wSchema] (compositionConfig wInput.project),
         changes := [] },
       [Call.validateCall [wSchema] (compositionConfig wInput.project)]) :=
  c5_initial_exit wEnv { wInput with isInitial := true } [wSchema] rfl rfl rfl

/-! ### C6 -/

/-- C6 counterexample: a non-null but empty base schema is falsy in
TypeScript, so the `after` sequence passes through unchanged — element 0's
document is not the merge of the parsed base with the original document
that the claim prescribes for every non-null base. -/
theorem c6_counterexample :
    c6Env.parse "" = .ok ["injected"] ∧
    computeAfterWithBase c6Env (some "") [wSchema] = .ok [wSchema] ∧
    concatAST [["injected"], wSchema.document] ≠ wSchema.document :=
  ⟨rfl, rfl, by decide⟩

/-- C6 (amended): for a non-null and non-empty base schema that parses to
`bdoc` and a non-empty `after`, the merged sequence keeps the length of
`after`; element 0 gets the base text prepended to its raw text and its
document replaced by the concatenation of the base document with the
original, with all other fields preserved; every element at index `j > 0`
is unchanged; and with a null base schema the sequence used is `after`
itself. -/
theorem c6_base_injection (env : Env) (b : String) (s0 : SchemaObject)
    (rest : List SchemaObject) (bdoc : List String)
    (hb : b ≠ "") (hp : env.parse b = .ok bdoc) :
    computeAfterWithBase env (some b) (s0 :: rest)
      = .ok (mergedFirst b bdoc s0 :: rest) ∧
    (mergedFirst b bdoc s0).raw = b ++ s0.raw ∧
    (mergedFirst b bdoc s0).document = concatAST [bdoc, s0.document] ∧
    (mergedFirst b bdoc s0).source = s0.source ∧
    (mergedFirst b bdoc s0 :: rest).length = (s0 :: rest).length ∧
    (∀ j, 0 < j → (mergedFirst b bdoc s0 :: rest)[j]? = (s0 :: rest)[j]?) ∧
    (∀ env2 after2, computeAfterWithBase env2 none after2 = .ok after2) := by
  refine ⟨?_, rfl, rfl, rfl, rfl, ?_, fun env2 after2 => rfl⟩
  · unfold computeAfterWithBase mergedFirst
    simp [hb, hp]
  · intro j hj
    cases j with
    | zero => exact absurd hj (lt_irrefl 0)
    | succ k => rfl

/-- Witness for C6 (amended) at a concrete input. -/
theorem c6_base_injection_witness :
    computeAfterWithBase wEnv (some "extra ") (wSchema :: [wSchema])
      = .ok (mergedFirst "extra " ["extra "] wSchema :: [wSchema]) ∧
    (mergedFirst "extra " ["extra "] wSchema).raw = "extra " ++ wSchema.raw ∧
    (mergedFirst "extra " ["extra "] wSchema).document
      = concatAST [["extra "], wSchema.document] ∧
    (mergedFirst "extra " ["extra "] wSchema).source = wSchema.source ∧
    (mergedFirst "extra " ["extra "] wSchema :: [wSchema]).length
      = (wSchema :: [wSchema]).length ∧
    (∀ j, 0 < j →
      (mergedFirst "extra " ["extra "] wSchema :: [wSchema])[j]?
        = (wSchema :: [wSchema])[j]?) ∧
    (∀ env2 after2, computeAfterWithBase env2 none after2 = .ok after2) :=
  c6_base_injection wEnv "extra " wSchema [wSchema] ["extra "] (by decide) rfl

/-! ### C7 -/

/-- C7 counterexample: with a base schema supplied, `Orchestrator.validate`
receives the base-merged sequence `[c7Merged]`, but both `Orchestrator.build`
calls receive the original sequences without the base — the post-change
build uses `after`, not `afterWithBase`, so the base fragment does not
participate in the schemas handed to `Inspector.diff`. -/
theorem c7_counterexample :
    c7Input.baseSchema = some "base " ∧
    computeAfterWithBase c7Env c7Input.baseSchema c7Input.after = .ok [c7Merged] ∧
    [c7Merged] ≠ c7Input.after ∧
    validate c7Env c7Input = .ok
      ({ valid := true, isComposable := true, errors := [], changes := [] },
       [Call.validateCall [c7Merged] none,
        Call.buildCall [wSchema] c7Ec,
        Call.buildCall [wSchema] c7Ec,
        Call.diffCall 7 7 "sel"]) :=
  ⟨rfl, by rfl, by decide, by rfl⟩

/-- C7 (amended): on the diff path, the base-merged sequence is used for
the `Orchestrator.validate` composability check, while both
`Orchestrator.build` calls receive the original `before` and `after`
sequences, without the base fragment. -/
theorem c7_base_only_in_validate (env : Env) (i : ValidateInput)
    (awb : List SchemaObject)
    (hawb : computeAfterWithBase env i.baseSchema i.after = .ok awb)
    (hid : areIdentical env i.existing i.incoming = false)
    (hinit : i.isInitial = false) :
    ∃ r dlog, validate env i = .ok (r,
      Call.validateCall awb (compositionConfig i.project)
        :: Call.buildCall i.before i.project.externalComposition
        :: Call.buildCall i.after i.project.externalComposition :: dlog) :=
  ⟨_, _, validate_final_branch env i awb hawb hid hinit⟩

/-- Witness for C7 (amended) at a concrete input. -/
theorem c7_base_only_in_validate_witness :
    ∃ r dlog, validate c7Env c7Input = .ok (r,
      Call.validateCall [c7Merged] (compositionConfig c7Input.project)
        :: Call.buildCall c7Input.before c7Input.project.externalComposition
        :: Call.buildCall c7Input.after c7Input.project.externalComposition :: dlog) :=
  c7_base_only_in_validate c7Env c7Input [c7Merged] (by rfl) rfl rfl

/-! ### C8 -/

theorem tryDiffStep_changes_ne_nil (env : Env) (i : ValidateInput)
    (errors0 : List SchemaError)
    (h : (tryDiffStep env i errors0).2.1 ≠ []) :
    ∃ es, env.orchestratorBuild i.before i.project.externalComposition = .ok (some es) := by
  unfold tryDiffStep at h
  cases hb : env.orchestratorBuild i.before i.project.externalComposition with
  | error e => simp [hb] at h
  | ok ex =>
    simp only [hb] at h
    cases ha : env.orchestratorBuild i.after i.project.externalComposition with
    | error e => simp [ha] at h
    | ok oi =>
      simp only [ha] at h
      cases ex with
      | none => simp at h
      | some es => exact ⟨es, rfl⟩

/-- C8 counterexample: the before build yields no usable schema (`null`)
and the diff is skipped, but the after build rejects, so the returned
errors are the composition errors plus one synthetic error — not exactly
the composition errors as the claim states. -/
theorem c8_counterexample :
    c8Env.orchestratorBuild c8Input.before c8Input.project.externalComposition = .ok none ∧
    c8Env.orchestratorValidate c8Input.after (compositionConfig c8Input.project) = [] ∧
    validate c8Env c8Input = .ok
      ({ valid := false, isComposable := false,
         errors := [compareFailError "after boom"], changes := [] },
       [Call.validateCall [wSchema] none,
        Call.buildCall [] c8Input.project.externalComposition,
        Call.buildCall [wSchema] c8Input.project.externalComposition]) ∧
    [compareFailError "after boom"] ≠ ([] : List SchemaError) :=
  ⟨rfl, rfl, by rfl, by decide⟩

/-- C8 (amended): on a non-initial validation where the before build
resolves to no usable schema and the after build also resolves,
`Inspector.diff` is not invoked (the call log holds exactly the validate
and the two build calls), the returned changes list is empty and the
returned errors are exactly the composition errors; and in general
`changes` is non-empty only on a non-initial, non-identical validation
whose before build resolves to a usable schema. -/
theorem c8_no_usable_before_schema (env : Env) (i : ValidateInput)
    (awb : List SchemaObject) (oi : Option SchemaObject)
    (hawb : computeAfterWithBase env i.baseSchema i.after = .ok awb)
    (hid : areIdentical env i.existing i.incoming = false)
    (hinit : i.isInitial = false)
    (hb : env.orchestratorBuild i.before i.project.externalComposition = .ok none)
    (ha : env.orchestratorBuild i.after i.project.externalComposition = .ok oi) :
    (validate env i = .ok
      ({ valid := (env.orchestratorValidate awb (compositionConfig i.project)).length == 0,
         isComposable := (env.orchestratorValidate awb (compositionConfig i.project)).length == 0,
         errors := env.orchestratorValidate awb (compositionConfig i.project),
         changes := [] },
       [Call.validateCall awb (compositionConfig i.project),
        Call.buildCall i.before i.project.externalComposition,
        Call.buildCall i.after i.project.externalComposition])) ∧
    (∀ env2 i2 r2 log2, validate env2 i2 = .ok (r2, log2) → r2.changes ≠ [] →
      i2.isInitial = false ∧
      areIdentical env2 i2.existing i2.incoming = false ∧
      ∃ es, env2.orchestratorBuild i2.before i2.project.externalComposition
              = .ok (some es)) := by
  constructor
  · have hstep : tryDiffStep env i
        (env.orchestratorValidate awb (compositionConfig i.project))
        = (env.orchestratorValidate awb (compositionConfig i.project), [], []) := by
      unfold tryDiffStep
      simp only [hb, ha]
    rw [validate_final_branch env i awb hawb hid hinit, hstep]
    simp [not_pos_beq_zero]
  · intro env2 i2 r2 log2 h hne
    unfold validate at h
    split at h
    · exact absurd h (by simp)
    · split at h
      · simp only [Except.ok.injEq, Prod.mk.injEq] at h
        obtain ⟨rfl, rfl⟩ := h
        simp at hne
      · split at h
        · simp only [Except.ok.injEq, Prod.mk.injEq] at h
          obtain ⟨rfl, rfl⟩ := h
          simp at hne
        · simp only [Except.ok.injEq, Prod.mk.injEq] at h
          obtain ⟨rfl, rfl⟩ := h
          rename_i hnid hnini
          exact ⟨by simpa using hnini, by simpa using hnid,
                 tryDiffStep_changes_ne_nil env2 i2 _ hne⟩

/-- Witness for C8 (amended) at a concrete input. -/
theorem c8_no_usable_before_schema_witness :
    (validate wEnv wInput = .ok
      ({ valid := (wEnv.orchestratorValidate [wSchema] (compositionConfig wInput.project)).length == 0,
         isComposable := (wEnv.orchestratorValidate [wSchema] (compositionConfig wInput.project)).length == 0,
         errors := wEnv.orchestratorValidate [wSchema] (compositionConfig wInput.project),
         changes := [] },
       [Call.validateCall [wSchema] (compositionConfig wInput.project),
        Call.buildCall wInput.before wInput.project.externalComposition,
        Call.buildCall wInput.after wInput.project.externalComposition])) ∧
    (∀ env2 i2 r2 log2, validate env2 i2 = .ok (r2, log2) → r2.changes ≠ [] →
      i2.isInitial = false ∧
      areIdentical env2 i2.existing i2.incoming = false ∧
      ∃ es, env2.orchestratorBuild i2.before i2.project.externalComposition
              = .ok (some es)) :=
  c8_no_usable_before_schema wEnv wInput [wSchema] none rfl rfl rfl rfl rfl

/-! ### C9 -/

/-- C9: on the diff path, both `Orchestrator.build` calls receive the
project's external-composition configuration unconditionally — also when
external composition is disabled — whereas `Orchestrator.validate`
receives `null` instead of the configuration when it is disabled. -/
theorem c9_build_config_unconditional (env : Env) (i : ValidateInput)
    (awb : List SchemaObject)
    (hawb : computeAfterWithBase env i.baseSchema i.after = .ok awb)
    (hid : areIdentical env i.existing i.incoming = false)
    (hinit : i.isInitial = false)
    (hdis : i.project.externalComposition.enabled = false) :
    compositionConfig i.project = none ∧
    ∃ r dlog, validate env i = .ok (r,
      Call.validateCall awb none
        :: Call.buildCall i.before i.project.externalComposition
        :: Call.buildCall i.after i.project.externalComposition :: dlog) := by
  have hc : compositionConfig i.project = none := by
    unfold compositionConfig
    simp [hdis]
  have hv := validate_final_branch env i awb hawb hid hinit
  rw [hc] at hv
  exact ⟨hc, _, _, hv⟩

/-- Witness for C9 at a concrete input. -/
theorem c9_build_config_unconditional_witness :
    compositionConfig c3Input.project = none ∧
    ∃ r dlog, validate c3Env c3Input = .ok (r,
      Call.validateCall [wSchema] none
        :: Call.buildCall c3Input.before c3Input.project.externalComposition
        :: Call.buildCall c3Input.after c3Input.project.externalComposition :: dlog) :=
  c9_build_config_unconditional c3Env c3Input [wSchema] rfl rfl rfl rfl

/-! ### C10 -/

/-- C10 counterexample: the empty string is non-null and not parseable
GraphQL, yet it is falsy in TypeScript, so `parse` is never invoked and
`validate` returns the identical-schema result instead of raising an
uncaught fault. -/
theorem c10_counterexample :
    c10Input.baseSchema = some "" ∧
    c10Env.parse "" = .error "Syntax Error: Unexpected <EOF>" ∧
    c10Input.after ≠ [] ∧
    validate c10Env c10Input
      = .ok ({ valid := true, isComposable := true, errors := [], changes := [] }, []) :=
  ⟨rfl, rfl, by decide, by rfl⟩

/-- C10 (amended): when `baseSchema` is non-null and non-empty, `after` is
non-empty, and the base schema does not parse, `validate` throws the parse
error: the parse happens before the identity short-circuit and before the
try/catch, with no hypothesis on `existing` or the hashes — so it throws
even when `hash(existing) == hash(incoming)` would otherwise yield the
identical-schema result. -/
theorem c10_parse_before_short_circuit (env : Env) (i : ValidateInput)
    (b msg : String) (s0 : SchemaObject) (rest : List SchemaObject)
    (hbase : i.baseSchema = some b) (hb : b ≠ "")
    (hafter : i.after = s0 :: rest)
    (hp : env.parse b = .error msg) :
    validate env i = .error msg := by
  have hawb : computeAfterWithBase env i.baseSchema i.after = .error msg := by
    rw [hbase, hafter]
    unfold computeAfterWithBase
    simp [hb, hp]
  unfold validate
  rw [hawb]

/-- Witness for C10 (amended) at a concrete input whose `existing` hash
equals the incoming hash. -/
theorem c10_parse_before_short_circuit_witness :
    validate wEnv { c3Input with baseSchema := some "bad", existing := some wSchema }
      = .error "Syntax Error" :=
  c10_parse_before_short_circuit wEnv
    { c3Input with baseSchema := some "bad", existing := some wSchema }
    "bad" "Syntax Error" wSchema [] rfl (by decide) rfl rfl

end SchemaValidator
